import Mathlib

/-!
Shallow embedding of `danlp/datasets/daned.py` (class `DaNED`).

The loader holds two in-memory maps parsed at construction time
(`self.properties` : qid → list of wikidata (property, value) pairs, both
members possibly null; `self.descriptions` : qid → description string) and a
cached dataset directory with three tab-separated partition files.

Python dictionaries keyed by strings are embedded as association lists with
`dictGet` (= `dict.get`) and `dictContains` (= `in`).  A pandas dataframe is
embedded as a list of column names plus a list of rows, each row an
association list from column name to a `Cell` (`Cell.na` plays NaN/None).
Reading a file is a state-passing operation on `LoaderState`; the Python
methods perform no writes, so reads return the state unchanged.
-/

namespace DaNED

/-- A wikidata (property-name, value) pair; either member may be null. -/
abbrev PropPair := Option String × Option String

/-- The list of wikidata properties stored for one qid. -/
abbrev PropList := List PropPair

/-- A Python dict keyed by strings, as an association list. -/
abbrev Dict (α : Type) := List (String × α)

/-- Embedding of Python `d.get(k)` / `d.get(k, default)` (via `Option.getD`). -/
def dictGet {α : Type} (d : Dict α) (k : String) : Option α :=
  (d.find? (fun kv => kv.1 == k)).map (fun kv => kv.2)

/-- Embedding of Python `k in d`. -/
def dictContains {α : Type} (d : Dict α) (k : String) : Bool :=
  d.any (fun kv => kv.1 == k)

/-- One cell of a dataframe: NaN/None, a string, or a stored properties list
(the value type of the `kg` enrichment column). -/
inductive Cell where
  | na : Cell
  | str : String → Cell
  | kgProps : PropList → Cell
deriving DecidableEq, Repr

/-- One dataframe row: column name → cell. -/
abbrev Row := List (String × Cell)

/-- A pandas dataframe: its column names and its rows. -/
structure DataFrame where
  columns : List String
  rows : List Row
deriving DecidableEq, Repr

/-- Whether a row contains a missing (NaN) field. -/
def rowHasNa (r : Row) : Bool :=
  r.any (fun pc => pc.2 == Cell.na)

/-- Embedding of `DataFrame.dropna()`: drop every row containing a missing field. -/
def dropna (df : DataFrame) : DataFrame :=
  ⟨df.columns, df.rows.filter (fun r => !(rowHasNa r))⟩

/-- The cell of row `r` in column `name` (`Cell.na` when the row has no such entry). -/
def cellAt (r : Row) (name : String) : Cell :=
  match r.find? (fun pc => pc.1 == name) with
  | none => Cell.na
  | some pc => pc.2

/-- The qid cell of a row, as accessed by `data[part]['qid']`. -/
def qidCell (r : Row) : Cell :=
  cellAt r "qid"

/-- The values of column `name`, as a pandas Series. -/
def getColumn (df : DataFrame) (name : String) : List Cell :=
  df.rows.map (fun r => cellAt r name)

/-- Embedding of `df[name] = cells`: append a column to the dataframe. -/
def addColumn (df : DataFrame) (name : String) (cells : List Cell) : DataFrame :=
  ⟨df.columns ++ [name], (df.rows.zip cells).map (fun rc => rc.1 ++ [(name, rc.2)])⟩

/-- Error conditions of `load_with_pandas`: the partition file is absent
(Python `FileNotFoundError` from `pd.read_csv`), or a required column is
absent after parsing (Python `KeyError` from column access). -/
inductive LoadError where
  | missingPartitionFile : String → LoadError
  | malformedPartitionFile : String → String → LoadError
deriving DecidableEq, Repr

/-- Embedding of `lambda x: self.properties.get(x, None)` applied to a qid
cell: a NaN qid or a qid absent from the map yields None (`Cell.na`). -/
def kgCellOf (props : Dict PropList) (c : Cell) : Cell :=
  match c with
  | Cell.str s =>
    match dictGet props s with
    | none => Cell.na
    | some l => Cell.kgProps l
  | _ => Cell.na

/-- Embedding of `lambda x: self.descriptions.get(x, None)` applied to a qid cell. -/
def descCellOf (descs : Dict String) (c : Cell) : Cell :=
  match c with
  | Cell.str s =>
    match dictGet descs s with
    | none => Cell.na
    | some d => Cell.str d
  | _ => Cell.na

/-- The state of a `DaNED` loader instance: the cached dataset directory
(partition name → parsed file, `none` when the file is absent) and the two
maps parsed from the JSON sidecar files at construction time. -/
structure LoaderState where
  files : String → Option DataFrame
  properties : Dict PropList
  descriptions : Dict String

/-- Embedding of `pd.read_csv(...)` on a partition file: a read-only
filesystem operation, failing when the file is absent. -/
def read_csv (st : LoaderState) (part : String) : Except LoadError DataFrame × LoaderState :=
  (match st.files part with
   | none => Except.error (LoadError.missingPartitionFile part)
   | some df => Except.ok df,
   st)

/-- The body of the `for part in ['train', 'dev', 'test']` loop of
`load_with_pandas`: read the partition file, `dropna()`, then add the `kg`
column from the properties map and the `description` column from the
descriptions map, both looked up from the `qid` column. -/
def loadPartitionSt (st : LoaderState) (part : String) : Except LoadError DataFrame × LoaderState :=
  match read_csv st part with
  | (Except.error e, st1) => (Except.error e, st1)
  | (Except.ok df0, st1) =>
    let df := dropna df0
    if df.columns.contains "qid" then
      let df1 := addColumn df "kg" ((getColumn df "qid").map (kgCellOf st1.properties))
      if df1.columns.contains "qid" then
        let df2 := addColumn df1 "description"
          ((getColumn df1 "qid").map (descCellOf st1.descriptions))
        (Except.ok df2, st1)
      else
        (Except.error (LoadError.malformedPartitionFile part "qid"), st1)
    else
      (Except.error (LoadError.malformedPartitionFile part "qid"), st1)

/-- Embedding of `DaNED.load_with_pandas`: load and enrich the three
partitions in the fixed order train, dev, test, propagating the first error. -/
def load_with_pandas (st : LoaderState) :
    Except LoadError (DataFrame × DataFrame × DataFrame) × LoaderState :=
  let rtr := loadPartitionSt st "train"
  match rtr.1 with
  | Except.error e => (Except.error e, rtr.2)
  | Except.ok tr =>
    let rdv := loadPartitionSt rtr.2 "dev"
    match rdv.1 with
    | Except.error e => (Except.error e, rdv.2)
    | Except.ok dv =>
      let rte := loadPartitionSt rdv.2 "test"
      match rte.1 with
      | Except.error e => (Except.error e, rte.2)
      | Except.ok te => (Except.ok (tr, dv, te), rte.2)

/-- The properties component returned by `get_kg_context_from_qid`: a list of
pairs when `output_as_dictionary` is true, a flattened string otherwise. -/
inductive KgProps where
  | asDict : PropList → KgProps
  | asString : String → KgProps
deriving DecidableEq, Repr

/-- The result of `get_kg_context_from_qid`: the returned pair, together with
the number of invocations of the online lookup collaborator made by the call. -/
structure KgResult where
  props : KgProps
  description : String
  onlineCalls : Nat
deriving DecidableEq, Repr

/-- Embedding of the flattening expression of `get_kg_context_from_qid`:
`" ".join([" ".join([p if p != None else "", v if v != None else ""]) for (p,v) in properties])`. -/
def flattenProps (l : PropList) : String :=
  String.intercalate " " (l.map (fun pv => String.intercalate " " [pv.1.getD "", pv.2.getD ""]))

/-- Embedding of `DaNED.get_kg_context_from_qid`.  `online` is the external
collaborator `get_kg_context_from_wikidata_qid`, modelled as a function from a
qid to a (properties, description) pair. -/
def get_kg_context_from_qid (self_properties : Dict PropList) (self_descriptions : Dict String)
    (online : String → PropList × String) (qid : String)
    (output_as_dictionary : Bool) (allow_online_search : Bool) : KgResult :=
  let properties := (dictGet self_properties qid).getD []
  let description := (dictGet self_descriptions qid).getD ""
  let pdc : PropList × String × Nat :=
    if !(dictContains self_properties qid) && allow_online_search then
      ((online qid).1, (online qid).2, 1)
    else
      (properties, description, 0)
  if output_as_dictionary then
    ⟨KgProps.asDict pdc.1, pdc.2.1, pdc.2.2⟩
  else
    ⟨KgProps.asString (flattenProps pdc.1), pdc.2.1, pdc.2.2⟩

/-- The method `get_kg_context_from_qid` as an operation on the loader state:
it only reads the two maps, so the state is returned unchanged. -/
def get_kg_context_from_qidSt (online : String → PropList × String) (qid : String)
    (output_as_dictionary : Bool) (allow_online_search : Bool) (st : LoaderState) :
    KgResult × LoaderState :=
  (get_kg_context_from_qid st.properties st.descriptions online qid
    output_as_dictionary allow_online_search, st)

/-- Modelled from the spec (section 4.2): the enriched partition table the
spec describes — drop every record containing a missing field, then append a
`kg` column by identifier lookup in the properties map (absent → null) and a
`description` column by identifier lookup in the descriptions map (absent →
null).  Compared against `load_with_pandas` in the refinement theorems. -/
def enrichTable (props : Dict PropList) (descs : Dict String) (df : DataFrame) : DataFrame :=
  ⟨df.columns ++ ["kg", "description"],
   (dropna df).rows.map (fun r =>
     r ++ [("kg", kgCellOf props (qidCell r)), ("description", descCellOf descs (qidCell r))])⟩

/-- A partition file holding only the identifier column: the `sentence` and
`class` columns required by the dataset layout are absent. -/
def dfQidOnly : DataFrame := ⟨["qid"], []⟩

/-- A cached directory whose every partition file has only the `qid` column. -/
def stQidOnly : LoaderState := ⟨fun _ => some dfQidOnly, [], []⟩

/-- A cached directory with no partition files at all. -/
def stMissingFile : LoaderState := ⟨fun _ => none, [], []⟩

/-- A partition file lacking the identifier (`qid`) column. -/
def dfNoQid : DataFrame := ⟨["sentence", "class"], []⟩

/-- A cached directory whose every partition file lacks the `qid` column. -/
def stNoQid : LoaderState := ⟨fun _ => some dfNoQid, [], []⟩

/-- A small train partition: one clean row for a mapped qid, one row with a
missing sentence (to be dropped), one clean row for an unmapped qid. -/
def dfTrainEx : DataFrame :=
  ⟨["qid", "sentence", "class"],
   [[("qid", Cell.str "Q1"), ("sentence", Cell.str "s1"), ("class", Cell.str "1")],
    [("qid", Cell.str "Q2"), ("sentence", Cell.na), ("class", Cell.str "0")],
    [("qid", Cell.str "Q3"), ("sentence", Cell.str "s3"), ("class", Cell.str "0")]]⟩

/-- An empty dev partition with the standard columns. -/
def dfDevEx : DataFrame := ⟨["qid", "sentence", "class"], []⟩

/-- An empty test partition with the standard columns. -/
def dfTestEx : DataFrame := ⟨["qid", "sentence", "class"], []⟩

/-- A loader over the three example partitions, with `Q1` mapped in both
sidecar maps and `Q3` mapped in neither. -/
def stEx : LoaderState :=
  ⟨fun part =>
    if part == "train" then some dfTrainEx
    else if part == "dev" then some dfDevEx
    else if part == "test" then some dfTestEx
    else none,
   [("Q1", [(some "occupation", some "writer")])],
   [("Q1", "a danish writer")]⟩

/-- The online collaborator of the spec scenario for `Q999`. -/
def onlineQ999 : String → PropList × String :=
  fun _ => ([(some "p", some "v")], "desc")

/-! Helper lemmas. -/

theorem dictGet_eq_none_of_not_contains {α : Type} (d : Dict α) (k : String)
    (h : dictContains d k = false) : dictGet d k = none := by
  induction d with
  | nil => rfl
  | cons kv d ih =>
    have hstep : dictContains (kv :: d) k = ((kv.1 == k) || dictContains d k) := rfl
    rw [hstep, Bool.or_eq_false_iff] at h
    have htail : dictGet d k = none := ih h.2
    have hfind : List.find? (fun kv : String × α => kv.1 == k) (kv :: d) =
        List.find? (fun kv : String × α => kv.1 == k) d :=
      List.find?_cons_of_neg d (by simp [h.1])
    unfold dictGet at htail ⊢
    rw [hfind]
    exact htail

theorem dictContains_eq_true_of_get {α : Type} (d : Dict α) (k : String) (v : α)
    (h : dictGet d k = some v) : dictContains d k = true := by
  induction d with
  | nil => simp [dictGet] at h
  | cons kv d ih =>
    have hstep : dictContains (kv :: d) k = ((kv.1 == k) || dictContains d k) := rfl
    rcases hbeq : (kv.1 == k) with _ | _
    · have hfind : List.find? (fun kv : String × α => kv.1 == k) (kv :: d) =
          List.find? (fun kv : String × α => kv.1 == k) d :=
        List.find?_cons_of_neg d (by simp [hbeq])
      have h' : dictGet d k = some v := by
        unfold dictGet at h ⊢
        rw [hfind] at h
        exact h
      rw [hstep, ih h', Bool.or_true]
    · rw [hstep, hbeq, Bool.true_or]

theorem zipSelfMap {α β : Type} (l : List α) (f : α → β) :
    l.zip (l.map f) = l.map (fun a => (a, f a)) := by
  induction l with
  | nil => rfl
  | cons x xs ih => simp [List.zip_cons_cons, ih]

theorem contains_append_left (l₁ l₂ : List String) (a : String)
    (h : l₁.contains a = true) : (l₁ ++ l₂).contains a = true := by
  have hm : a ∈ l₁ := by
    simpa using h
  have hm' : a ∈ l₁ ++ l₂ := List.mem_append_left l₂ hm
  simpa using hm'

theorem cellAt_append_ne (r : Row) (nm : String) (c : Cell) (k : String)
    (h : (nm == k) = false) : cellAt (r ++ [(nm, c)]) k = cellAt r k := by
  unfold cellAt
  induction r with
  | nil => simp [List.find?, h]
  | cons p ps ih =>
    by_cases hp : (p.1 == k) = true
    · simp [List.find?, hp]
    · simp only [Bool.not_eq_true] at hp
      simp only [List.cons_append, List.find?, hp] at ih ⊢
      exact ih

theorem qidCell_append (r : Row) (nm : String) (c : Cell) (h : (nm == "qid") = false) :
    qidCell (r ++ [(nm, c)]) = qidCell r :=
  cellAt_append_ne r nm c "qid" h

theorem dropna_columns (df : DataFrame) : (dropna df).columns = df.columns := rfl

theorem getColumn_map (df : DataFrame) (nm : String) (g : Cell → Cell) :
    (getColumn df nm).map g = df.rows.map (fun r => g (cellAt r nm)) := by
  unfold getColumn
  rw [List.map_map]
  rfl

theorem addColumn_of_fun (df : DataFrame) (name : String) (f : Row → Cell) :
    addColumn df name (df.rows.map f) =
      ⟨df.columns ++ [name], df.rows.map (fun r => r ++ [(name, f r)])⟩ := by
  unfold addColumn
  rw [zipSelfMap, List.map_map]
  rfl

theorem loadPartitionSt_missing (st : LoaderState) (part : String)
    (hf : st.files part = none) :
    loadPartitionSt st part = (Except.error (LoadError.missingPartitionFile part), st) := by
  simp only [loadPartitionSt, read_csv, hf]

theorem loadPartitionSt_noqid (st : LoaderState) (part : String) (df : DataFrame)
    (hf : st.files part = some df) (hq : df.columns.contains "qid" = false) :
    loadPartitionSt st part = (Except.error (LoadError.malformedPartitionFile part "qid"), st) := by
  simp only [loadPartitionSt, read_csv, hf]
  have hq' : (dropna df).columns.contains "qid" = false := hq
  rw [if_neg (ne_true_of_eq_false hq')]

theorem loadPartitionSt_ok (st : LoaderState) (part : String) (df : DataFrame)
    (hf : st.files part = some df) (hq : df.columns.contains "qid" = true) :
    loadPartitionSt st part =
      (Except.ok (enrichTable st.properties st.descriptions df), st) := by
  have hq' : (dropna df).columns.contains "qid" = true := hq
  simp only [loadPartitionSt, read_csv, hf, hq', if_true, reduceIte]
  rw [getColumn_map (dropna df) "qid" (kgCellOf st.properties)]
  rw [addColumn_of_fun (dropna df) "kg" (fun r => kgCellOf st.properties (cellAt r "qid"))]
  have hq2 : ((dropna df).columns ++ ["kg"]).contains "qid" = true :=
    contains_append_left _ _ _ hq'
  simp only [hq2, if_true, reduceIte]
  rw [getColumn_map _ "qid" (descCellOf st.descriptions)]
  rw [show ((⟨(dropna df).columns ++ ["kg"],
        (dropna df).rows.map (fun r =>
          r ++ [("kg", kgCellOf st.properties (cellAt r "qid"))])⟩ : DataFrame)).rows =
      (dropna df).rows.map (fun r =>
        r ++ [("kg", kgCellOf st.properties (cellAt r "qid"))]) from rfl]
  rw [List.map_map]
  have hcomp : ((fun r => descCellOf st.descriptions (cellAt r "qid")) ∘
      (fun r : Row => r ++ [("kg", kgCellOf st.properties (cellAt r "qid"))])) =
      (fun r : Row => descCellOf st.descriptions (cellAt r "qid")) := by
    funext r
    simp only [Function.comp]
    rw [cellAt_append_ne r "kg" (kgCellOf st.properties (cellAt r "qid")) "qid" rfl]
  rw [hcomp]
  rw [show (dropna df).rows.map (fun r => descCellOf st.descriptions (cellAt r "qid")) =
      ((dropna df).rows.map (fun r : Row =>
        r ++ [("kg", kgCellOf st.properties (cellAt r "qid"))])).map
        (fun r => descCellOf st.descriptions (cellAt r "qid")) from by
    rw [List.map_map, hcomp]]
  rw [addColumn_of_fun ⟨(dropna df).columns ++ ["kg"],
      (dropna df).rows.map (fun r =>
        r ++ [("kg", kgCellOf st.properties (cellAt r "qid"))])⟩ "description"
      (fun r => descCellOf st.descriptions (cellAt r "qid"))]
  unfold enrichTable
  have hcols : ((dropna df).columns ++ ["kg"]) ++ ["description"] =
      df.columns ++ ["kg", "description"] := by
    rw [dropna_columns, List.append_assoc]
    rfl
  have hrows : ((dropna df).rows.map (fun r =>
        r ++ [("kg", kgCellOf st.properties (cellAt r "qid"))])).map
      (fun r => r ++ [("description", descCellOf st.descriptions (cellAt r "qid"))]) =
      (dropna df).rows.map (fun r =>
        r ++ [("kg", kgCellOf st.properties (qidCell r)),
              ("description", descCellOf st.descriptions (qidCell r))]) := by
    rw [List.map_map]
    apply List.map_congr_left
    intro r _
    simp only [Function.comp]
    rw [cellAt_append_ne r "kg" (kgCellOf st.properties (cellAt r "qid")) "qid" (by decide)]
    rw [List.append_assoc]
    rfl
  rw [hcols, hrows]

theorem loadPartitionSt_snd (st : LoaderState) (part : String) :
    (loadPartitionSt st part).2 = st := by
  rcases hf : st.files part with _ | df
  · rw [loadPartitionSt_missing st part hf]
  · rcases hq : df.columns.contains "qid" with _ | _
    · rw [loadPartitionSt_noqid st part df hf hq]
    · rw [loadPartitionSt_ok st part df hf hq]

theorem loadPartitionSt_pair (st : LoaderState) (part : String) :
    loadPartitionSt st part = ((loadPartitionSt st part).1, st) := by
  have h := loadPartitionSt_snd st part
  exact Prod.ext rfl h

theorem load_with_pandas_snd (st : LoaderState) : (load_with_pandas st).2 = st := by
  simp only [load_with_pandas]
  rw [loadPartitionSt_snd st "train"]
  rw [loadPartitionSt_snd st "dev"]
  rw [loadPartitionSt_snd st "test"]
  rcases (loadPartitionSt st "train").1 with er1 | tr
  · rfl
  · rcases (loadPartitionSt st "dev").1 with er2 | dv
    · rfl
    · rcases (loadPartitionSt st "test").1 with er3 | te <;> rfl

/-! Claim theorems. -/

/-- C1 (counterexample): for the properties list `[("p1","v1"), (None,"v2")]`
the flattened string produced by `get_kg_context_from_qid` is `"p1 v1  v2"`
(with a double space), which is not the `"p1 v1 v2"` the claim states. -/
theorem C1_counterexample :
    get_kg_context_from_qid [("Q1", [(some "p1", some "v1"), (none, some "v2")])] []
      (fun _ => ([], "")) "Q1" false false =
      ⟨KgProps.asString "p1 v1  v2", "", 0⟩ ∧ ("p1 v1  v2" : String) ≠ "p1 v1 v2" :=
  ⟨rfl, by decide⟩

/-- C1 (amended): for the properties list `[("p1","v1"), (None,"v2")]`,
`get_kg_context_from_qid` with `output_as_dictionary=false` returns the
flattened string `"p1 v1  v2"`: the null member is substituted by the empty
string before the in-pair space join, so the pair `(None,"v2")` contributes
`" v2"` and a double space separates the two pairs. -/
theorem C1_flatten_example :
    get_kg_context_from_qid [("Q1", [(some "p1", some "v1"), (none, some "v2")])] []
      (fun _ => ([], "")) "Q1" false false =
      ⟨KgProps.asString "p1 v1  v2", "", 0⟩ := rfl

/-- C2 (counterexample): a partition file containing only the `qid` column —
with both the `sentence` and the `class` columns absent — does not make
`load_with_pandas` fail: the load succeeds, contradicting the claim that a
missing required column always raises a malformed-partition-file error. -/
theorem C2_counterexample :
    dfQidOnly.columns.contains "sentence" = false ∧
    dfQidOnly.columns.contains "class" = false ∧
    stQidOnly.files "train" = some dfQidOnly ∧
    (load_with_pandas stQidOnly).1 =
      Except.ok (⟨["qid", "kg", "description"], []⟩, ⟨["qid", "kg", "description"], []⟩,
        ⟨["qid", "kg", "description"], []⟩) :=
  ⟨rfl, rfl, rfl, rfl⟩

/-- C2 (amended): per partition, `load_with_pandas` fails with a
missing-partition-file error when the partition's file is absent, and with a
malformed-partition-file error when the identifier (`qid`) column is missing
after parsing; when the `qid` column is present the partition loads
successfully, so the absence of the `sentence` or label column is not
detected and causes no error. -/
theorem C2_partition_errors (st : LoaderState) (part : String) :
    (st.files part = none →
      loadPartitionSt st part = (Except.error (LoadError.missingPartitionFile part), st)) ∧
    (∀ df, st.files part = some df → df.columns.contains "qid" = false →
      loadPartitionSt st part =
        (Except.error (LoadError.malformedPartitionFile part "qid"), st)) ∧
    (∀ df, st.files part = some df → df.columns.contains "qid" = true →
      loadPartitionSt st part =
        (Except.ok (enrichTable st.properties st.descriptions df), st)) ∧
    (st.files "train" = none →
      (load_with_pandas st).1 = Except.error (LoadError.missingPartitionFile "train")) := by
  refine ⟨fun hf => loadPartitionSt_missing st part hf,
          fun df hf hq => loadPartitionSt_noqid st part df hf hq,
          fun df hf hq => loadPartitionSt_ok st part df hf hq,
          fun hf => ?_⟩
  simp only [load_with_pandas, loadPartitionSt_missing st "train" hf]

/-- C2 (witness): the three error/success branches and the propagation of a
missing train file through `load_with_pandas`, at concrete loader states. -/
theorem C2_partition_errors_witness :
    loadPartitionSt stMissingFile "train" =
      (Except.error (LoadError.missingPartitionFile "train"), stMissingFile) ∧
    loadPartitionSt stNoQid "train" =
      (Except.error (LoadError.malformedPartitionFile "train" "qid"), stNoQid) ∧
    loadPartitionSt stQidOnly "train" =
      (Except.ok (enrichTable stQidOnly.properties stQidOnly.descriptions dfQidOnly),
        stQidOnly) ∧
    (load_with_pandas stMissingFile).1 = Except.error (LoadError.missingPartitionFile "train") :=
  ⟨(C2_partition_errors stMissingFile "train").1 rfl,
   (C2_partition_errors stNoQid "train").2.1 dfNoQid rfl rfl,
   (C2_partition_errors stQidOnly "train").2.2.1 dfQidOnly rfl rfl,
   (C2_partition_errors stMissingFile "train").2.2.2 rfl⟩

/-- C3: when the three partition files are present and each has the `qid`
column, `load_with_pandas` returns, in the fixed order (train, dev, test),
exactly the enrichment the spec describes: rows with a missing field dropped,
then a `kg` column set to the properties-map value of the row's identifier
(null when absent) and a `description` column set to the descriptions-map
value (null when absent); the loader state is unchanged. -/
theorem C3_load_with_pandas_enriches (st : LoaderState) (a b c : DataFrame)
    (ha : st.files "train" = some a) (hb : st.files "dev" = some b)
    (hc : st.files "test" = some c)
    (hqa : a.columns.contains "qid" = true) (hqb : b.columns.contains "qid" = true)
    (hqc : c.columns.contains "qid" = true) :
    load_with_pandas st =
      (Except.ok (enrichTable st.properties st.descriptions a,
                  enrichTable st.properties st.descriptions b,
                  enrichTable st.properties st.descriptions c), st) := by
  simp only [load_with_pandas,
    loadPartitionSt_ok st "train" a ha hqa,
    loadPartitionSt_ok st "dev" b hb hqb,
    loadPartitionSt_ok st "test" c hc hqc]

/-- C3 (witness): the enrichment at a concrete loader state: the row with a
missing sentence is dropped, `Q1` is enriched from both maps and `Q3` (absent
from both maps) is enriched with nulls. -/
theorem C3_load_with_pandas_enriches_witness :
    load_with_pandas stEx =
      (Except.ok (enrichTable stEx.properties stEx.descriptions dfTrainEx,
                  enrichTable stEx.properties stEx.descriptions dfDevEx,
                  enrichTable stEx.properties stEx.descriptions dfTestEx), stEx) ∧
    enrichTable stEx.properties stEx.descriptions dfTrainEx =
      ⟨["qid", "sentence", "class", "kg", "description"],
       [[("qid", Cell.str "Q1"), ("sentence", Cell.str "s1"), ("class", Cell.str "1"),
         ("kg", Cell.kgProps [(some "occupation", some "writer")]),
         ("description", Cell.str "a danish writer")],
        [("qid", Cell.str "Q3"), ("sentence", Cell.str "s3"), ("class", Cell.str "0"),
         ("kg", Cell.na), ("description", Cell.na)]]⟩ :=
  ⟨C3_load_with_pandas_enriches stEx dfTrainEx dfDevEx dfTestEx rfl rfl rfl rfl rfl rfl,
   rfl⟩

/-- C4: for every properties map, descriptions map, online collaborator, qid
and online-search flag, the string-mode result of `get_kg_context_from_qid`
is obtained from the dictionary-mode properties list by joining each pair's
two members with a space (empty string substituted for an absent member) and
joining the per-pair strings with a single space, in original list order;
the description and the online-call count are the same in both modes. -/
theorem C4_string_mode_flattens_dictionary_mode (P : Dict PropList) (D : Dict String)
    (online : String → PropList × String) (qid : String) (aos : Bool) :
    ∃ L d n,
      get_kg_context_from_qid P D online qid true aos = ⟨KgProps.asDict L, d, n⟩ ∧
      get_kg_context_from_qid P D online qid false aos =
        ⟨KgProps.asString (String.intercalate " "
          (L.map (fun pv => String.intercalate " " [pv.1.getD "", pv.2.getD ""]))), d, n⟩ := by
  unfold get_kg_context_from_qid flattenProps
  exact ⟨_, _, _, rfl, rfl⟩

/-- C5: for every identifier present in the properties map,
`get_kg_context_from_qid` with `allow_online_search=false` returns exactly
the stored properties value in dictionary mode, and performs zero invocations
of the online lookup collaborator. -/
theorem C5_stored_value_no_online (P : Dict PropList) (D : Dict String)
    (online : String → PropList × String) (qid : String) (v : PropList)
    (hv : dictGet P qid = some v) :
    get_kg_context_from_qid P D online qid true false =
      ⟨KgProps.asDict v, (dictGet D qid).getD "", 0⟩ := by
  simp [get_kg_context_from_qid, hv]

/-- C5 (witness): a stored qid is returned verbatim with no online call. -/
theorem C5_stored_value_no_online_witness :
    get_kg_context_from_qid [("Q1", [(some "occupation", some "writer")])]
      [("Q1", "a danish writer")] (fun _ => ([], "")) "Q1" true false =
      ⟨KgProps.asDict [(some "occupation", some "writer")], "a danish writer", 0⟩ :=
  C5_stored_value_no_online _ _ _ _ _ rfl

/-- C6: for every identifier absent from the properties map, with
`allow_online_search=true`, `get_kg_context_from_qid` returns exactly the
pair produced by a single invocation of the online lookup collaborator, in
both output modes, bypassing the local maps. -/
theorem C6_online_fallback (P : Dict PropList) (D : Dict String)
    (online : String → PropList × String) (qid : String)
    (h : dictContains P qid = false) :
    get_kg_context_from_qid P D online qid true true =
      ⟨KgProps.asDict (online qid).1, (online qid).2, 1⟩ ∧
    get_kg_context_from_qid P D online qid false true =
      ⟨KgProps.asString (flattenProps (online qid).1), (online qid).2, 1⟩ := by
  constructor <;> simp [get_kg_context_from_qid, h]

/-- C6 (witness): the spec scenario — `Q999` absent everywhere, the online
collaborator returning `([("p","v")], "desc")` — yields exactly that pair. -/
theorem C6_online_fallback_witness :
    get_kg_context_from_qid [] [] onlineQ999 "Q999" true true =
      ⟨KgProps.asDict [(some "p", some "v")], "desc", 1⟩ :=
  (C6_online_fallback [] [] onlineQ999 "Q999" rfl).1

/-- C7: for every identifier absent from both maps, with
`allow_online_search=false`, `get_kg_context_from_qid` returns the empty list
(dictionary mode) or the empty string (string mode) as properties and the
empty string as description, with zero online invocations and no error. -/
theorem C7_unknown_everywhere (P : Dict PropList) (D : Dict String)
    (online : String → PropList × String) (qid : String)
    (hp : dictContains P qid = false) (hd : dictContains D qid = false) :
    get_kg_context_from_qid P D online qid true false = ⟨KgProps.asDict [], "", 0⟩ ∧
    get_kg_context_from_qid P D online qid false false = ⟨KgProps.asString "", "", 0⟩ := by
  have hgp := dictGet_eq_none_of_not_contains P qid hp
  have hgd := dictGet_eq_none_of_not_contains D qid hd
  have hflat : flattenProps [] = "" := rfl
  constructor <;> simp [get_kg_context_from_qid, hgp, hgd, hflat]

/-- C7 (witness): an identifier unknown everywhere yields the empty results. -/
theorem C7_unknown_everywhere_witness :
    get_kg_context_from_qid [] [] (fun _ => ([], "")) "Q0" true false =
      ⟨KgProps.asDict [], "", 0⟩ ∧
    get_kg_context_from_qid [] [] (fun _ => ([], "")) "Q0" false false =
      ⟨KgProps.asString "", "", 0⟩ :=
  C7_unknown_everywhere [] [] (fun _ => ([], "")) "Q0" rfl rfl

/-- C8: calling `load_with_pandas` twice on the same loader state yields
identical results, and the call leaves the loader state — including the
on-disk partition files — unchanged. -/
theorem C8_idempotent_no_mutation (st : LoaderState) :
    (load_with_pandas st).2 = st ∧
    (load_with_pandas ((load_with_pandas st).2)).1 = (load_with_pandas st).1 := by
  have h := load_with_pandas_snd st
  exact ⟨h, by rw [h]⟩

/-- C9: neither `load_with_pandas` nor `get_kg_context_from_qid` (for any
arguments, including with the online fallback enabled) mutates the
per-instance properties and descriptions maps. -/
theorem C9_maps_never_mutated (st : LoaderState) (online : String → PropList × String)
    (qid : String) (od aos : Bool) :
    (get_kg_context_from_qidSt online qid od aos st).2.properties = st.properties ∧
    (get_kg_context_from_qidSt online qid od aos st).2.descriptions = st.descriptions ∧
    (load_with_pandas st).2.properties = st.properties ∧
    (load_with_pandas st).2.descriptions = st.descriptions := by
  refine ⟨rfl, rfl, ?_, ?_⟩ <;> rw [load_with_pandas_snd st]

/-- C10: for every identifier present in the properties map but absent from
the descriptions map, `get_kg_context_from_qid` with
`allow_online_search=true` returns the stored properties with the empty
string as description and zero online invocations: the online fallback is
keyed on the properties map alone, so a missing description is never fetched
online. -/
theorem C10_description_never_fetched_online (P : Dict PropList) (D : Dict String)
    (online : String → PropList × String) (qid : String) (v : PropList)
    (hv : dictGet P qid = some v) (hd : dictContains D qid = false) :
    get_kg_context_from_qid P D online qid true true = ⟨KgProps.asDict v, "", 0⟩ := by
  have hc := dictContains_eq_true_of_get P qid v hv
  have hgd := dictGet_eq_none_of_not_contains D qid hd
  simp [get_kg_context_from_qid, hv, hc, hgd]

/-- C10 (witness): a qid with stored properties but no stored description
keeps its stored properties and gets an empty description, with no online
call, even though the online collaborator would return data. -/
theorem C10_description_never_fetched_online_witness :
    get_kg_context_from_qid [("Q1", [(some "p", some "v")])] [] onlineQ999 "Q1" true true =
      ⟨KgProps.asDict [(some "p", some "v")], "", 0⟩ :=
  C10_description_never_fetched_online _ _ _ _ _ rfl rfl

end DaNED
